import Mathlib

/-!
Verification of the lead-relevancy evaluator (`lead_match.py`).

Shallow embedding conventions:
  * The external completion service is modelled by an oracle
    `beh : Nat → AttemptOutcome` giving the outcome of the n-th invocation
    attempt (0-based); the tenacity-wrapped `_invoke_model` becomes
    `invokeModel`, which also reports how many attempts it made.
  * Python `float` values produced by score extraction are modelled as `Rat`
    (every value the claims touch is a finite decimal; Python's special
    literals `inf`/`nan` are outside the modelled parser fragment, and under
    Python's `max(0, min(10, _))` they land inside `[0, 10]` as well).
  * A Python `dict` for a lead is modelled by `Lead`; the two keys the code
    reads with possibly-missing access (`lead['lead_id']`, `lead.get`) are
    `Option`-valued, `none` standing for an absent key.
  * Exceptions become `Except` values; `time.sleep(2)` pacing between leads
    is counted in the returned `BatchTrace`.
-/

/-- Kind of exception an invocation attempt can raise: `rateLimited` models
`openai.RateLimitError`, `apiError` models `openai.APIError`, and
`otherError` models any other exception from `model.invoke`. -/
inductive ExcKind where
  | rateLimited
  | apiError
  | otherError
deriving DecidableEq, Repr

/-- Whether tenacity retries this exception: the source configures
`retry_if_exception_type((RateLimitError, APIError))`. -/
def isRetryable : ExcKind → Bool
  | .rateLimited => true
  | .apiError => true
  | .otherError => false

/-- Outcome of a single call to `model.invoke(prompt)`: either a response
whose `.content` is the given text, or an exception of the given kind. -/
inductive AttemptOutcome where
  | success (content : String)
  | failure (k : ExcKind)
deriving DecidableEq, Repr

/-- One step of the tenacity retry loop of `_invoke_model`: `i` attempts have
already been made, `fuel` attempts remain (the source configures
`stop_after_attempt(3)`).  Returns the final result together with the total
number of attempts made.  A retryable exception is retried while attempts
remain; a non-retryable exception, or exhaustion of the attempt budget,
makes the error propagate (tenacity re-raises / raises `RetryError`). -/
def invokeGo (beh : Nat → AttemptOutcome) : Nat → Nat → Except ExcKind String × Nat
  | i, 0 => (.error .otherError, i)
  | i, fuel + 1 =>
    match beh i with
    | .success c => (.ok c, i + 1)
    | .failure k =>
      if isRetryable k && fuel != 0 then invokeGo beh (i + 1) fuel
      else (.error k, i + 1)

/-- Embedding of `_invoke_model` (lead_match.py lines 72-87): at most 3 total
attempts, retrying only `RateLimitError` / `APIError`. -/
def invokeModel (beh : Nat → AttemptOutcome) : Except ExcKind String × Nat :=
  invokeGo beh 0 3

/-- Decimal digits to a natural number, most significant first. -/
def digitsToNat (ds : List Char) : Nat :=
  ds.foldl (fun a c => 10 * a + (c.toNat - 48)) 0

/-- Embedding of Python `str.strip()`: drop leading and trailing whitespace
characters. -/
def pyStrip (s : String) : List Char :=
  ((s.data.dropWhile Char.isWhitespace).reverse.dropWhile Char.isWhitespace).reverse

/-- Digits of the unsigned mantissa of a Python float literal: digits with at
most one decimal point, at least one digit overall (`"7"`, `"7.5"`, `"7."`,
`".5"`).  Returns the integer part, the fractional part, and the number of
fractional digits. -/
def parseUnsignedDec (cs : List Char) : Option (Nat × Nat × Nat) :=
  match cs.splitOn '.' with
  | [ip] =>
    if !ip.isEmpty && ip.all Char.isDigit then some (digitsToNat ip, 0, 0) else none
  | [ip, fp] =>
    if (!ip.isEmpty || !fp.isEmpty) && ip.all Char.isDigit && fp.all Char.isDigit then
      some (digitsToNat ip, digitsToNat fp, fp.length)
    else none
  | _ => none

/-- Optionally signed run of decimal digits (the exponent of a float
literal). -/
def parseSignedInt (cs : List Char) : Option Int :=
  match cs with
  | '+' :: ds =>
    if !ds.isEmpty && ds.all Char.isDigit then some (digitsToNat ds) else none
  | '-' :: ds =>
    if !ds.isEmpty && ds.all Char.isDigit then some (-(digitsToNat ds : Int)) else none
  | ds =>
    if !ds.isEmpty && ds.all Char.isDigit then some (digitsToNat ds) else none

/-- Syntactic shape of a finite Python float literal: sign, integer part,
fractional part with its digit count, and exponent. -/
structure DecLit where
  neg : Bool
  ipart : Nat
  fpart : Nat
  flen : Nat
  exp : Int
deriving DecidableEq, Repr

/-- Grammar of Python `float(...)` on finite decimal literals: optional sign,
decimal mantissa, optional `e`/`E` exponent.  (Digit-group underscores and
the special literals `inf`/`nan` are outside the modelled fragment; the
claims never exercise them, and under the clamp they too stay in `[0,10]`.)
Returns `none` where Python raises `ValueError`. -/
def parsePyFloatLit (s : List Char) : Option DecLit :=
  let cs := s.map Char.toLower
  let sb : Bool × List Char :=
    match cs with
    | '+' :: r => (false, r)
    | '-' :: r => (true, r)
    | r => (false, r)
  match sb.2.splitOn 'e' with
  | [m] =>
    (parseUnsignedDec m).map (fun p => ⟨sb.1, p.1, p.2.1, p.2.2, 0⟩)
  | [m, ex] =>
    match parseUnsignedDec m, parseSignedInt ex with
    | some p, some ev => some ⟨sb.1, p.1, p.2.1, p.2.2, ev⟩
    | _, _ => none
  | _ => none

/-- Ten to an integer power, as a rational. -/
def powTen (e : Int) : Rat :=
  if 0 ≤ e then (10 : Rat) ^ e.toNat else 1 / (10 : Rat) ^ (-e).toNat

/-- Rational value denoted by a finite Python float literal. -/
def DecLit.toRat (l : DecLit) : Rat :=
  (if l.neg then -1 else 1) * ((l.ipart : Rat) + (l.fpart : Rat) / (10 : Rat) ^ l.flen)
    * powTen l.exp

/-- Embedding of Python `float(...)`: the value of the literal, or `none`
where Python raises `ValueError`. -/
def parsePyFloat (s : List Char) : Option Rat :=
  (parsePyFloatLit s).map DecLit.toRat

/-- Embedding of score extraction (lead_match.py lines 94-99):
`score = float(result.content.strip()); return max(0, min(10, score))`,
with `return 0.0` on `ValueError`. -/
def extractScore (content : String) : Rat :=
  match parsePyFloat (pyStrip content) with
  | some score => max 0 (min 10 score)
  | none => 0

deriving instance DecidableEq for Except

/-- Error an evaluator call can propagate: the source raises
`ValueError("OPENAI_API_KEY is not set ...")` at lead_match.py line 37. -/
inductive EvalError where
  | missingApiKey
deriving DecidableEq, Repr

/-- Embedding of the credential check (lead_match.py lines 35-36):
`os.getenv` yields `none` when the variable is unset, and Python's
`if not api_key:` also treats the empty string as missing. -/
def apiKeyOk : Option String → Bool
  | some s => !s.isEmpty
  | none => false

/-- A lead dictionary.  The code reads `lead['lead_id']` (raising `KeyError`
when absent) and `lead.get('name', ...)`, so those two keys are
`Option`-valued; the remaining keys are only interpolated into the prompt. -/
structure Lead where
  lead_id : Option Int
  name : Option String
  experience : String
  education : String
  company : String
  company_overview : String
  company_industry : String
deriving DecidableEq, Repr

/-- Embedding of `evaluate_product_relevancy` (lead_match.py lines 11-102).
`env` is the value of `OPENAI_API_KEY`; `beh` the completion-service oracle
(the prompt built from `product_details` and `lead_info` only influences the
outcome through `beh`).  Returns the propagated error or the score, paired
with the number of model-invocation attempts made.  The credential check
precedes the `try` block, so its `ValueError` propagates with 0 attempts;
inside the `try`, any error from `_invoke_model` is absorbed into `0.0`, and
an unparseable response yields `0.0` via `extractScore`. -/
def evaluate_product_relevancy (env : Option String) (beh : Nat → AttemptOutcome)
    (product_details : String) (lead_info : Lead) : Except EvalError Rat × Nat :=
  if apiKeyOk env then
    match invokeModel beh with
    | (.ok content, n) => (.ok (extractScore content), n)
    | (.error _, n) => (.ok 0, n)
  else (.error .missingApiKey, 0)

/-- Result dictionary appended for each lead by `evaluate_multiple_leads`:
both `results.append` sites (lead_match.py lines 139-142 and 150-153) build a
dict with exactly the keys `lead_id` and `relevance_score`. -/
structure EvalResult where
  lead_id : Int
  relevance_score : Rat
deriving DecidableEq, Repr

/-- Trace of one iteration of the loop body of `evaluate_multiple_leads`:
the appended result, whether the `except` handler ran, and how many model
attempts the evaluator call made. -/
structure LeadTrace where
  result : EvalResult
  exc : Bool
  modelAttempts : Nat
deriving DecidableEq, Repr

/-- Embedding of the loop body (lead_match.py lines 134-153) for one lead:
call `evaluate_product_relevancy` (its `ValueError` for a missing credential
is the only exception it propagates), then build
`{'lead_id': lead['lead_id'], 'relevance_score': score}` — where the lookup
raises `KeyError` when the key is absent.  Either exception reaches the
`except` handler, which appends
`{'lead_id': lead.get('lead_id', 0), 'relevance_score': 0.0}` instead. -/
def leadStep (env : Option String) (beh : Nat → AttemptOutcome)
    (product_details : String) (lead : Lead) : LeadTrace :=
  let e := evaluate_product_relevancy env beh product_details lead
  match e.1, lead.lead_id with
  | .error _, _ => ⟨⟨lead.lead_id.getD 0, 0⟩, true, e.2⟩
  | .ok score, some id => ⟨⟨id, score⟩, false, e.2⟩
  | .ok _, none => ⟨⟨0, 0⟩, true, e.2⟩

/-- Trace of a whole `evaluate_multiple_leads` call: the returned list, the
number of 2-second inter-lead `time.sleep(2)` pauses executed (line 146), the
total number of model-invocation attempts, and the number of calls made to
`evaluate_product_relevancy`. -/
structure BatchTrace where
  results : List EvalResult
  pauses : Nat
  modelAttempts : Nat
  evalCalls : Nat
deriving DecidableEq, Repr

/-- Recursion over the remaining leads; `i` is the current index.  The guard
`i < len(leads_data) - 1` of the sleep at line 145 holds exactly when the
remaining suffix `rest` is nonempty, and the sleep is inside the `try`, so it
is skipped when the iteration's `except` handler ran.  Each lead gets its own
attempt oracle `beh i`. -/
def evalLeadsGo (env : Option String) (beh : Nat → Nat → AttemptOutcome)
    (product_details : String) : Nat → List Lead → BatchTrace
  | _, [] => ⟨[], 0, 0, 0⟩
  | i, lead :: rest =>
    let step := leadStep env (beh i) product_details lead
    let tail := evalLeadsGo env beh product_details (i + 1) rest
    ⟨step.result :: tail.results,
     (if !step.exc && !rest.isEmpty then 1 else 0) + tail.pauses,
     step.modelAttempts + tail.modelAttempts,
     1 + tail.evalCalls⟩

/-- Embedding of `evaluate_multiple_leads` (lead_match.py lines 105-156). -/
def evaluate_multiple_leads (env : Option String) (beh : Nat → Nat → AttemptOutcome)
    (product_details : String) (leads_data : List Lead) : BatchTrace :=
  evalLeadsGo env beh product_details 0 leads_data

/-- A throwaway lead used as a concrete input in witnesses. -/
def sampleLead : Lead :=
  ⟨some 7, some "Ada", "engineer", "BSc", "Acme", "tools", "software"⟩

/-- A lead dictionary lacking the `lead_id` key, used in counterexamples. -/
def noIdLead : Lead :=
  ⟨none, some "Bob", "teacher", "MBA", "School", "education", "education"⟩

/-- Score extraction on a response whose trimmed text is a float literal. -/
theorem extractScore_of_lit (s : String) (l : DecLit)
    (h : parsePyFloatLit (pyStrip s) = some l) :
    extractScore s = max 0 (min 10 l.toRat) := by
  simp [extractScore, parsePyFloat, h]

/-- Score extraction on a response whose trimmed text is not a float
literal. -/
theorem extractScore_of_unparseable (s : String)
    (h : parsePyFloatLit (pyStrip s) = none) :
    extractScore s = 0 := by
  simp [extractScore, parsePyFloat, h]

/-- C1: for every model response text, the score returned by
`evaluate_product_relevancy` lies in `[0, 10]`: a parsed value below 0 is
clamped to 0, one above 10 is clamped to 10, an in-range value is returned
as parsed, and an unparseable response yields exactly `0.0`. -/
theorem extractScore_clamped (s : String) :
    (0 ≤ extractScore s ∧ extractScore s ≤ 10) ∧
    (∀ q, parsePyFloat (pyStrip s) = some q → extractScore s = max 0 (min 10 q)) ∧
    (∀ q, parsePyFloat (pyStrip s) = some q → q < 0 → extractScore s = 0) ∧
    (∀ q, parsePyFloat (pyStrip s) = some q → 10 < q → extractScore s = 10) ∧
    (∀ q, parsePyFloat (pyStrip s) = some q → 0 ≤ q → q ≤ 10 → extractScore s = q) ∧
    (parsePyFloat (pyStrip s) = none → extractScore s = 0) := by
  refine ⟨?_, ?_, ?_, ?_, ?_, ?_⟩
  · unfold extractScore
    cases h : parsePyFloat (pyStrip s) with
    | none => norm_num
    | some q =>
      constructor
      · exact le_max_left 0 (min 10 q)
      · exact max_le (by norm_num) (min_le_left 10 q)
  · intro q h
    simp [extractScore, h]
  · intro q h hq
    have h1 : min 10 q = q := min_eq_right (le_of_lt (lt_trans hq (by norm_num)))
    have h2 : max 0 q = 0 := max_eq_left (le_of_lt hq)
    simp [extractScore, h, h1, h2]
  · intro q h hq
    have h1 : min 10 q = 10 := min_eq_left (le_of_lt hq)
    have h2 : max 0 (10 : Rat) = 10 := max_eq_right (by norm_num)
    simp [extractScore, h, h1, h2]
  · intro q h h0 h10
    have h1 : min 10 q = q := min_eq_right h10
    have h2 : max 0 q = q := max_eq_right h0
    simp [extractScore, h, h1, h2]
  · intro h
    simp [extractScore, h]

/-- Witness for C1 at the concrete response `"-3"`, which parses to a
negative value and is clamped to 0. -/
theorem extractScore_clamped_witness :
    parsePyFloat (pyStrip "-3") = some (-3) ∧ extractScore "-3" = 0 := by
  have hlit : parsePyFloatLit (pyStrip "-3") = some ⟨true, 3, 0, 0, 0⟩ := by decide
  have hq : parsePyFloat (pyStrip "-3") = some (-3) := by
    simp [parsePyFloat, hlit]
    norm_num [DecLit.toRat, powTen]
  exact ⟨hq, (extractScore_clamped "-3").2.2.1 (-3) hq (by norm_num)⟩

/-- C8: score extraction on the specific model outputs named in the spec:
`"7.5"` yields 7.5, `"12.0"` is clamped to 10.0, `"-3"` is clamped to 0.0,
and unparseable `"excellent match"` yields 0.0. -/
theorem extractScore_examples :
    extractScore "7.5" = 7.5 ∧ extractScore "12.0" = 10 ∧
    extractScore "-3" = 0 ∧ extractScore "excellent match" = 0 := by
  refine ⟨?_, ?_, ?_, ?_⟩
  · rw [extractScore_of_lit "7.5" ⟨false, 7, 5, 1, 0⟩ (by decide)]
    norm_num [DecLit.toRat, powTen]
  · rw [extractScore_of_lit "12.0" ⟨false, 12, 0, 1, 0⟩ (by decide)]
    norm_num [DecLit.toRat, powTen]
  · rw [extractScore_of_lit "-3" ⟨true, 3, 0, 0, 0⟩ (by decide)]
    norm_num [DecLit.toRat, powTen]
  · exact extractScore_of_unparseable _ (by decide)

/-- The retry loop makes at most `i + fuel` total attempts. -/
theorem invokeGo_attempts_le (beh : Nat → AttemptOutcome) :
    ∀ fuel i, (invokeGo beh i fuel).2 ≤ i + fuel := by
  intro fuel
  induction fuel with
  | zero => intro i; simp [invokeGo]
  | succ n ih =>
    intro i
    unfold invokeGo
    cases beh i with
    | success c =>
      show i + 1 ≤ i + (n + 1)
      omega
    | failure k =>
      show (if (isRetryable k && n != 0) = true then invokeGo beh (i + 1) n
        else (Except.error k, i + 1)).2 ≤ i + (n + 1)
      by_cases h : (isRetryable k && n != 0) = true
      · rw [if_pos h]
        have := ih (i + 1)
        omega
      · rw [if_neg h]
        show i + 1 ≤ i + (n + 1)
        omega

/-- C3: `evaluate_product_relevancy` propagates no exception other than the
missing-credential `ValueError`: with the credential absent it returns that
error having made 0 invocation attempts; with the credential present its
result is always a score, and in particular every failure of `_invoke_model`
(retry exhaustion included) is absorbed into the score `0.0`. -/
theorem evaluate_product_relevancy_exceptions (env : Option String)
    (beh : Nat → AttemptOutcome) (product_details : String) (lead_info : Lead) :
    (apiKeyOk env = false →
      evaluate_product_relevancy env beh product_details lead_info
        = (.error .missingApiKey, 0)) ∧
    (apiKeyOk env = true →
      ∃ q, (evaluate_product_relevancy env beh product_details lead_info).1 = .ok q) ∧
    (apiKeyOk env = true → ∀ k n, invokeModel beh = (.error k, n) →
      evaluate_product_relevancy env beh product_details lead_info = (.ok 0, n)) := by
  refine ⟨?_, ?_, ?_⟩
  · intro h
    simp [evaluate_product_relevancy, h]
  · intro h
    unfold evaluate_product_relevancy
    rw [h]
    simp only [if_true]
    rcases hm : invokeModel beh with ⟨r, n⟩
    cases r with
    | ok content => exact ⟨extractScore content, rfl⟩
    | error e => exact ⟨0, rfl⟩
  · intro h k n hm
    simp [evaluate_product_relevancy, h, hm]

/-- Witness for C3: the missing-credential case propagates with 0 attempts,
and a present credential with a non-retryable invocation failure yields the
score `0.0`. -/
theorem evaluate_product_relevancy_exceptions_witness :
    evaluate_product_relevancy none (fun _ => .success "7.5") "p" sampleLead
      = (.error .missingApiKey, 0) ∧
    evaluate_product_relevancy (some "k") (fun _ => .failure .otherError) "p" sampleLead
      = (.ok 0, 1) := by
  constructor
  · exact (evaluate_product_relevancy_exceptions none (fun _ => .success "7.5")
      "p" sampleLead).1 (by decide)
  · exact (evaluate_product_relevancy_exceptions (some "k")
      (fun _ => .failure .otherError) "p" sampleLead).2.2 (by decide)
      .otherError 1 (by decide)

/-- C4: model invocation makes at most 3 total attempts, retrying only the
transient kinds: two retryable failures followed by a success give the
success result in exactly 3 attempts, and three consecutive retryable
failures make the evaluator return `0.0` (no propagated error) after exactly
3 attempts. -/
theorem invokeModel_retry_policy (env : Option String) (beh : Nat → AttemptOutcome)
    (product_details : String) (lead_info : Lead) (k0 k1 k2 : ExcKind) (t : String) :
    (invokeModel beh).2 ≤ 3 ∧
    (isRetryable k0 = true → isRetryable k1 = true →
      beh 0 = .failure k0 → beh 1 = .failure k1 → beh 2 = .success t →
      apiKeyOk env = true →
      invokeModel beh = (.ok t, 3) ∧
      evaluate_product_relevancy env beh product_details lead_info
        = (.ok (extractScore t), 3)) ∧
    (isRetryable k0 = true → isRetryable k1 = true → isRetryable k2 = true →
      beh 0 = .failure k0 → beh 1 = .failure k1 → beh 2 = .failure k2 →
      apiKeyOk env = true →
      invokeModel beh = (.error k2, 3) ∧
      evaluate_product_relevancy env beh product_details lead_info = (.ok 0, 3)) := by
  refine ⟨invokeGo_attempts_le beh 3 0, ?_, ?_⟩
  · intro hr0 hr1 h0 h1 h2 henv
    have hm : invokeModel beh = (.ok t, 3) := by
      simp [invokeModel, invokeGo, h0, h1, h2, hr0, hr1]
    exact ⟨hm, by simp [evaluate_product_relevancy, henv, hm]⟩
  · intro hr0 hr1 hr2 h0 h1 h2 henv
    have hm : invokeModel beh = (.error k2, 3) := by
      simp [invokeModel, invokeGo, h0, h1, h2, hr0, hr1, hr2]
    exact ⟨hm, by simp [evaluate_product_relevancy, henv, hm]⟩

/-- Witness for C4: both retry scenarios at concrete oracles, with
rate-limit failures on the first two attempts. -/
theorem invokeModel_retry_policy_witness :
    (invokeModel (fun n => if n < 2 then .failure .rateLimited else .success "x")
        = (.ok "x", 3) ∧
      evaluate_product_relevancy (some "k")
        (fun n => if n < 2 then .failure .rateLimited else .success "x") "p" sampleLead
        = (.ok (extractScore "x"), 3)) ∧
    (invokeModel (fun _ => .failure .apiError) = (.error .apiError, 3) ∧
      evaluate_product_relevancy (some "k") (fun _ => .failure .apiError) "p" sampleLead
        = (.ok 0, 3)) := by
  constructor
  · exact (invokeModel_retry_policy (some "k")
      (fun n => if n < 2 then .failure .rateLimited else .success "x") "p" sampleLead
      .rateLimited .rateLimited .rateLimited "x").2.1
      (by decide) (by decide) (by decide) (by decide) (by decide) (by decide)
  · exact (invokeModel_retry_policy (some "k") (fun _ => .failure .apiError)
      "p" sampleLead .apiError .apiError .apiError "x").2.2
      (by decide) (by decide) (by decide) (by decide) (by decide) (by decide) (by decide)

/-- C7: a non-retryable exception on the first invocation attempt is not
retried — exactly 1 attempt occurs — and the evaluator absorbs it into the
score `0.0`. -/
theorem non_retryable_single_attempt (env : Option String) (beh : Nat → AttemptOutcome)
    (product_details : String) (lead_info : Lead) (k : ExcKind) :
    apiKeyOk env = true → isRetryable k = false → beh 0 = .failure k →
    invokeModel beh = (.error k, 1) ∧
    evaluate_product_relevancy env beh product_details lead_info = (.ok 0, 1) := by
  intro henv hk h0
  have hm : invokeModel beh = (.error k, 1) := by
    simp [invokeModel, invokeGo, h0, hk]
  exact ⟨hm, by simp [evaluate_product_relevancy, henv, hm]⟩

/-- Witness for C7 at a concrete non-retryable failure. -/
theorem non_retryable_single_attempt_witness :
    invokeModel (fun _ => .failure .otherError) = (.error .otherError, 1) ∧
    evaluate_product_relevancy (some "k") (fun _ => .failure .otherError) "p" sampleLead
      = (.ok 0, 1) := by
  exact non_retryable_single_attempt (some "k") (fun _ => .failure .otherError)
    "p" sampleLead .otherError (by decide) (by decide) (by decide)

/-- With the credential absent, the evaluator propagates the `ValueError`
with 0 invocation attempts. -/
theorem eval_missing_key (env : Option String) (beh : Nat → AttemptOutcome)
    (product_details : String) (lead_info : Lead) (h : apiKeyOk env = false) :
    evaluate_product_relevancy env beh product_details lead_info
      = (.error .missingApiKey, 0) := by
  simp [evaluate_product_relevancy, h]

/-- With the credential present, the evaluator always returns a score. -/
theorem eval_isOk_of_key (env : Option String) (beh : Nat → AttemptOutcome)
    (product_details : String) (lead_info : Lead) (h : apiKeyOk env = true) :
    ∃ q n, evaluate_product_relevancy env beh product_details lead_info = (.ok q, n) := by
  unfold evaluate_product_relevancy
  rw [h]
  simp only [if_true]
  rcases hm : invokeModel beh with ⟨r, n⟩
  cases r with
  | ok content => exact ⟨extractScore content, n, rfl⟩
  | error e => exact ⟨0, n, rfl⟩

/-- An iteration whose `except` handler ran appends the fallback result
`{'lead_id': lead.get('lead_id', 0), 'relevance_score': 0.0}`. -/
theorem leadStep_exc_result (env : Option String) (beh : Nat → AttemptOutcome)
    (product_details : String) (lead : Lead)
    (h : (leadStep env beh product_details lead).exc = true) :
    (leadStep env beh product_details lead).result = ⟨lead.lead_id.getD 0, 0⟩ := by
  rcases he : evaluate_product_relevancy env beh product_details lead with ⟨r, n⟩
  cases r with
  | error e => simp [leadStep, he]
  | ok q =>
    cases hid : lead.lead_id with
    | some id => simp [leadStep, he, hid] at h
    | none => simp [leadStep, he, hid]

/-- With the credential present and the `lead_id` key present, the
iteration's `except` handler does not run. -/
theorem leadStep_exc_false (env : Option String) (beh : Nat → AttemptOutcome)
    (product_details : String) (lead : Lead)
    (henv : apiKeyOk env = true) (hid : lead.lead_id.isSome = true) :
    (leadStep env beh product_details lead).exc = false := by
  obtain ⟨q, n, he⟩ := eval_isOk_of_key env beh product_details lead henv
  obtain ⟨id, hid2⟩ := Option.isSome_iff_exists.mp hid
  simp [leadStep, he, hid2]

/-- A lead whose dictionary has the `lead_id` key gets a result carrying
exactly that id, on the success path and on the fallback path alike. -/
theorem leadStep_result_shape (env : Option String) (beh : Nat → AttemptOutcome)
    (product_details : String) (lead : Lead) (id : Int)
    (hid : lead.lead_id = some id) :
    ∃ q, (leadStep env beh product_details lead).result = ⟨id, q⟩ := by
  rcases he : evaluate_product_relevancy env beh product_details lead with ⟨r, n⟩
  cases r with
  | error e => exact ⟨0, by simp [leadStep, he, hid]⟩
  | ok q => exact ⟨q, by simp [leadStep, he, hid]⟩

/-- With the credential absent, every iteration takes the fallback path with
0 model attempts. -/
theorem leadStep_missing_key (env : Option String) (beh : Nat → AttemptOutcome)
    (product_details : String) (lead : Lead) (h : apiKeyOk env = false) :
    leadStep env beh product_details lead = ⟨⟨lead.lead_id.getD 0, 0⟩, true, 0⟩ := by
  simp [leadStep, eval_missing_key env beh product_details lead h]

/-- The batch loop appends exactly one result per lead. -/
theorem evalLeadsGo_results_length (env : Option String) (beh : Nat → Nat → AttemptOutcome)
    (product_details : String) :
    ∀ (leads : List Lead) (i : Nat),
      (evalLeadsGo env beh product_details i leads).results.length = leads.length := by
  intro leads
  induction leads with
  | nil => intro i; simp [evalLeadsGo]
  | cons lead rest ih =>
    intro i
    simp [evalLeadsGo, ih (i + 1)]

/-- The j-th result of the batch loop started at index `i` is the result of
the loop body on the j-th remaining lead. -/
theorem evalLeadsGo_results_get (env : Option String) (beh : Nat → Nat → AttemptOutcome)
    (product_details : String) :
    ∀ (leads : List Lead) (i j : Nat),
      (evalLeadsGo env beh product_details i leads).results[j]? =
        (leads[j]?).map (fun l => (leadStep env (beh (i + j)) product_details l).result) := by
  intro leads
  induction leads with
  | nil => intro i j; simp [evalLeadsGo]
  | cons lead rest ih =>
    intro i j
    cases j with
    | zero => simp [evalLeadsGo]
    | succ m =>
      simp only [evalLeadsGo, List.getElem?_cons_succ]
      rw [ih (i + 1) m]
      have : i + 1 + m = i + (m + 1) := by omega
      rw [this]

/-- The batch loop calls the evaluator once per lead. -/
theorem evalLeadsGo_evalCalls (env : Option String) (beh : Nat → Nat → AttemptOutcome)
    (product_details : String) :
    ∀ (leads : List Lead) (i : Nat),
      (evalLeadsGo env beh product_details i leads).evalCalls = leads.length := by
  intro leads
  induction leads with
  | nil => intro i; simp [evalLeadsGo]
  | cons lead rest ih =>
    intro i
    simp [evalLeadsGo, ih (i + 1)]
    omega

/-- The batch loop sleeps at most once per lead other than the last. -/
theorem evalLeadsGo_pauses_le (env : Option String) (beh : Nat → Nat → AttemptOutcome)
    (product_details : String) :
    ∀ (leads : List Lead) (i : Nat),
      (evalLeadsGo env beh product_details i leads).pauses ≤ leads.length - 1 := by
  intro leads
  induction leads with
  | nil => intro i; simp [evalLeadsGo]
  | cons lead rest ih =>
    intro i
    cases rest with
    | nil => simp [evalLeadsGo]
    | cons l2 r2 =>
      have h := ih (i + 1)
      have hcons : (evalLeadsGo env beh product_details i (lead :: l2 :: r2)).pauses
          = (if !(leadStep env (beh i) product_details lead).exc
                && !(l2 :: r2).isEmpty then 1 else 0)
            + (evalLeadsGo env beh product_details (i + 1) (l2 :: r2)).pauses := rfl
      rw [hcons]
      simp only [List.length_cons] at h ⊢
      split <;> omega

/-- When no iteration's handler runs, the batch loop sleeps exactly once
per lead other than the last. -/
theorem evalLeadsGo_pauses_eq (env : Option String) (beh : Nat → Nat → AttemptOutcome)
    (product_details : String) (henv : apiKeyOk env = true) :
    ∀ (leads : List Lead), (∀ l ∈ leads, l.lead_id.isSome = true) →
      ∀ i, (evalLeadsGo env beh product_details i leads).pauses = leads.length - 1 := by
  intro leads
  induction leads with
  | nil => intro _ i; simp [evalLeadsGo]
  | cons lead rest ih =>
    intro hall i
    have hexc := leadStep_exc_false env (beh i) product_details lead henv
      (hall lead (by simp))
    have hrest : ∀ l ∈ rest, l.lead_id.isSome = true := by
      intro l hl
      exact hall l (by simp [hl])
    cases rest with
    | nil => simp [evalLeadsGo, hexc]
    | cons l2 r2 =>
      have h := ih hrest (i + 1)
      have hcons : (evalLeadsGo env beh product_details i (lead :: l2 :: r2)).pauses
          = (if !(leadStep env (beh i) product_details lead).exc
                && !(l2 :: r2).isEmpty then 1 else 0)
            + (evalLeadsGo env beh product_details (i + 1) (l2 :: r2)).pauses := rfl
      rw [hcons, hexc, h]
      show 1 + ((l2 :: r2).length - 1) = (lead :: l2 :: r2).length - 1
      simp only [List.length_cons]
      omega

/-- With the credential absent, every result is the fallback and no model
attempt is made anywhere in the batch. -/
theorem evalLeadsGo_missing_key (env : Option String) (beh : Nat → Nat → AttemptOutcome)
    (product_details : String) (h : apiKeyOk env = false) :
    ∀ (leads : List Lead) (i : Nat),
      (evalLeadsGo env beh product_details i leads).results
          = leads.map (fun l => ⟨l.lead_id.getD 0, 0⟩) ∧
      (evalLeadsGo env beh product_details i leads).modelAttempts = 0 := by
  intro leads
  induction leads with
  | nil => intro i; simp [evalLeadsGo]
  | cons lead rest ih =>
    intro i
    have hstep := leadStep_missing_key env (beh i) product_details lead h
    have htail := ih (i + 1)
    simp [evalLeadsGo, hstep, htail.1, htail.2]

/-- C2: for every product description and every lead list, the result list
of `evaluate_multiple_leads` has the same length as the input list, and its
j-th entry is the result the loop body produces for the j-th input lead
(input order is preserved). -/
theorem evaluate_multiple_leads_length_order (env : Option String)
    (beh : Nat → Nat → AttemptOutcome) (product_details : String) (leads : List Lead) :
    (evaluate_multiple_leads env beh product_details leads).results.length
        = leads.length ∧
    ∀ j, (evaluate_multiple_leads env beh product_details leads).results[j]? =
      (leads[j]?).map (fun l => (leadStep env (beh j) product_details l).result) := by
  constructor
  · exact evalLeadsGo_results_length env beh product_details leads 0
  · intro j
    have h := evalLeadsGo_results_get env beh product_details leads 0 j
    simpa using h

/-- C9: if the iteration for the j-th lead takes the `except` path, that
lead's result is `{'lead_id': lead.get('lead_id', 0), 'relevance_score':
0.0}`, and the batch still returns one result per input lead — the batch
function is total and never fails because of one bad lead. -/
theorem per_lead_failure_isolation (env : Option String)
    (beh : Nat → Nat → AttemptOutcome) (product_details : String) (leads : List Lead)
    (j : Nat) (lead : Lead) (hj : leads[j]? = some lead)
    (hexc : (leadStep env (beh j) product_details lead).exc = true) :
    (evaluate_multiple_leads env beh product_details leads).results[j]?
        = some ⟨lead.lead_id.getD 0, 0⟩ ∧
    (evaluate_multiple_leads env beh product_details leads).results.length
        = leads.length := by
  constructor
  · have hg := evalLeadsGo_results_get env beh product_details leads 0 j
    show (evalLeadsGo env beh product_details 0 leads).results[j]? = _
    rw [hg, hj]
    simp only [Nat.zero_add, Option.map_some']
    rw [leadStep_exc_result env (beh j) product_details lead hexc]
  · exact evalLeadsGo_results_length env beh product_details leads 0

/-- Witness for C9: a 1-lead batch whose lead dictionary lacks `lead_id`
takes the fallback path and still yields a full-length result list. -/
theorem per_lead_failure_isolation_witness :
    (evaluate_multiple_leads (some "k") (fun _ _ => .success "x") "p"
        [noIdLead]).results[0]? = some ⟨0, 0⟩ ∧
    (evaluate_multiple_leads (some "k") (fun _ _ => .success "x") "p"
        [noIdLead]).results.length = 1 := by
  exact per_lead_failure_isolation (some "k") (fun _ _ => .success "x") "p"
    [noIdLead] 0 noIdLead (by decide) (by decide)

/-- C10: when the j-th input lead has the `lead_id` key, the j-th result
carries exactly that id — on both the success and the fallback path — and a
result is a record of exactly the two fields `lead_id` and
`relevance_score`. -/
theorem result_lead_id_preserved (env : Option String)
    (beh : Nat → Nat → AttemptOutcome) (product_details : String) (leads : List Lead)
    (j : Nat) (lead : Lead) (id : Int)
    (hj : leads[j]? = some lead) (hid : lead.lead_id = some id) :
    ∃ q, (evaluate_multiple_leads env beh product_details leads).results[j]?
        = some ⟨id, q⟩ := by
  obtain ⟨q, hq⟩ := leadStep_result_shape env (beh j) product_details lead id hid
  refine ⟨q, ?_⟩
  show (evalLeadsGo env beh product_details 0 leads).results[j]? = some ⟨id, q⟩
  rw [evalLeadsGo_results_get env beh product_details leads 0 j, hj]
  simp only [Nat.zero_add, Option.map_some']
  rw [hq]

/-- Witness for C10 at a concrete 1-lead batch with `lead_id` 7. -/
theorem result_lead_id_preserved_witness :
    (evaluate_multiple_leads (some "k") (fun _ _ => .failure .otherError) "p"
        [sampleLead]).results[0]? = some ⟨7, 0⟩ := by
  obtain ⟨q, hq⟩ := result_lead_id_preserved (some "k")
    (fun _ _ => .failure .otherError) "p" [sampleLead] 0 sampleLead 7
    (by decide) (by decide)
  have hval : (evaluate_multiple_leads (some "k") (fun _ _ => .failure .otherError)
      "p" [sampleLead]).results[0]? = some ⟨7, 0⟩ := by decide
  have hq0 : q = 0 := by
    rw [hval] at hq
    injection hq with h1
    injection h1 with h2 h3
    exact h3.symm
  rw [hq0] at hq
  exact hq

/-- C6 counterexample: a 2-lead batch whose first lead dictionary lacks the
`lead_id` key makes 2 evaluator calls but executes 0 inter-lead pauses — the
`time.sleep(2)` after lead 0 sits inside the `try` and is skipped when the
`except` handler runs — refuting the claimed unconditional pause between
consecutive leads. -/
theorem batch_pause_skipped_cex :
    evaluate_multiple_leads (some "k") (fun _ _ => .success "x") "p"
      [noIdLead, sampleLead] = ⟨[⟨0, 0⟩, ⟨7, 0⟩], 0, 2, 2⟩ := by decide

/-- C6 (amended): a batch of N leads makes exactly N evaluator calls and at
most N−1 inter-lead pauses of 2 time-units, with no pause after the last
lead; the pause after lead i is executed exactly when that iteration's
`except` handler did not run, so a batch with the credential present and
every `lead_id` key present pauses exactly N−1 times. -/
theorem batch_pause_policy (env : Option String) (beh : Nat → Nat → AttemptOutcome)
    (product_details : String) (leads : List Lead) :
    (evaluate_multiple_leads env beh product_details leads).evalCalls = leads.length ∧
    (evaluate_multiple_leads env beh product_details leads).pauses ≤ leads.length - 1 ∧
    (apiKeyOk env = true → (∀ l ∈ leads, l.lead_id.isSome = true) →
      (evaluate_multiple_leads env beh product_details leads).pauses
        = leads.length - 1) := by
  refine ⟨evalLeadsGo_evalCalls env beh product_details leads 0,
    evalLeadsGo_pauses_le env beh product_details leads 0, ?_⟩
  intro henv hall
  exact evalLeadsGo_pauses_eq env beh product_details henv leads hall 0

/-- Witness for C6 (amended) at a 2-lead batch with all keys present: 2
evaluator calls and exactly 1 pause. -/
theorem batch_pause_policy_witness :
    (evaluate_multiple_leads (some "k") (fun _ _ => .success "x") "p"
        [sampleLead, sampleLead]).evalCalls = 2 ∧
    (evaluate_multiple_leads (some "k") (fun _ _ => .success "x") "p"
        [sampleLead, sampleLead]).pauses = 1 := by
  have h := batch_pause_policy (some "k") (fun _ _ => .success "x") "p"
    [sampleLead, sampleLead]
  exact ⟨h.1, h.2.2 (by decide) (by decide)⟩

/-- C5 counterexample: with the credential absent, a 1-lead batch call does
not surface the failure — it returns a normal result list in which the lead
got the score `0.0` (the per-lead handler converted the `ValueError` into a
score). -/
theorem missing_key_batch_cex :
    evaluate_multiple_leads none (fun _ _ => .success "7.5") "p" [sampleLead]
      = ⟨[⟨7, 0⟩], 0, 0, 1⟩ := by decide

/-- C5 (amended): with the credential absent no network call is ever
attempted (0 invocation attempts on every path) and
`evaluate_product_relevancy` fails immediately; but in the batch path the
per-lead handler converts that failure into `0.0`-score results instead of
surfacing it. -/
theorem missing_key_no_network (env : Option String) (beh : Nat → AttemptOutcome)
    (behB : Nat → Nat → AttemptOutcome) (product_details : String) (lead : Lead)
    (leads : List Lead) (h : apiKeyOk env = false) :
    evaluate_product_relevancy env beh product_details lead
        = (.error .missingApiKey, 0) ∧
    (evaluate_multiple_leads env behB product_details leads).modelAttempts = 0 ∧
    (evaluate_multiple_leads env behB product_details leads).results
        = leads.map (fun l => ⟨l.lead_id.getD 0, 0⟩) := by
  have hb := evalLeadsGo_missing_key env behB product_details h leads 0
  exact ⟨eval_missing_key env beh product_details lead h, hb.2, hb.1⟩

/-- Witness for C5 (amended) with the credential unset. -/
theorem missing_key_no_network_witness :
    evaluate_product_relevancy none (fun _ => .success "7.5") "p" sampleLead
        = (.error .missingApiKey, 0) ∧
    (evaluate_multiple_leads none (fun _ _ => .success "7.5") "p"
        [sampleLead]).modelAttempts = 0 ∧
    (evaluate_multiple_leads none (fun _ _ => .success "7.5") "p"
        [sampleLead]).results = [sampleLead].map (fun l => ⟨l.lead_id.getD 0, 0⟩) := by
  exact missing_key_no_network none (fun _ => .success "7.5")
    (fun _ _ => .success "7.5") "p" sampleLead [sampleLead] (by decide)

